import Mathlib

/-!
Verification of the contract-review pipeline of this repository
(`src/crew/crew.py` together with the three agent modules under
`src/agents/`).

Modelling conventions, chosen once for the whole development:

* JSON values parsed from the inference service are modelled by the
  inductive type `Json`.  Numeric JSON values are modelled as integers:
  every derivation in the orchestrator uses only order comparisons, which
  behave identically for the float case, and all documented defaults are
  integers.
* A Python dict is an association list `Obj := List (String × Json)`;
  `dlookup` returns the value of the first matching key (Python dicts have
  unique keys, so the first match is the only match for dicts produced by
  `json.loads`).
* Each agent method builds a prompt, performs exactly one client call, and
  parses the response inside a `try/except` that converts any exception
  into a documented per-stage default object.  The combination of prompt
  construction, client call and `json.loads` is abstracted by a
  `StageOutcome`: `ok r` is a successfully parsed response object (the
  `response_format json_object` request setting guarantees the parsed
  value is an object) and `exn msg` is any exception raised before the
  result is returned, carrying `str(e)`.
* Python operations that can raise on dynamically mistyped values
  (`len`, `.get`, `.lower`, order comparisons, iteration) are modelled by
  `Except String` valued functions (`pyLen`, `pyGet`, ...); a `try/except`
  block of the source is modelled by matching on the resulting
  `Except` value.
-/

set_option linter.unusedVariables false
set_option linter.unreachableTactic false
set_option linter.unusedTactic false
set_option linter.unnecessarySeqFocus false

namespace ContractReview

/-- JSON values, as produced by `json.loads` (numbers restricted to
integers, see the header comment). -/
inductive Json where
  | null : Json
  | b (v : Bool) : Json
  | i (v : Int) : Json
  | s (v : String) : Json
  | arr (v : List Json) : Json
  | obj (v : List (String × Json)) : Json

/-- A Python dict with string keys, as an association list. -/
abbrev Obj := List (String × Json)

/-- Value of the first binding of key `k`, if any. -/
def dlookup (o : Obj) (k : String) : Option Json :=
  match o.find? (fun p => p.1 == k) with
  | some p => some p.2
  | none => none

/-- Python `o.get(k, d)` for an actual dict `o`. -/
def dget (o : Obj) (k : String) (d : Json) : Json :=
  (dlookup o k).getD d

/-- Python `k in o` for an actual dict `o`. -/
def hasKey (o : Obj) (k : String) : Bool :=
  (dlookup o k).isSome

/-- Python `len(v)`; raises `TypeError` on values without a length. -/
def pyLen : Json → Except String Nat
  | Json.s v => Except.ok v.length
  | Json.arr v => Except.ok v.length
  | Json.obj v => Except.ok v.length
  | _ => Except.error "TypeError: object has no len()"

/-- Python `v.get(k, d)`; raises `AttributeError` when `v` is not a dict. -/
def pyGet : Json → String → Json → Except String Json
  | Json.obj o, k, d => Except.ok (dget o k d)
  | _, _, _ => Except.error "AttributeError: object has no attribute get"

/-- Python `s.lower()` on a string: the per-character lowercase map
(identical to the Python behaviour on the ASCII priority and keyword
strings the pipeline compares). -/
def lowerStr (s : String) : String := String.mk (s.data.map Char.toLower)

/-- Python `v.lower()`; raises `AttributeError` when `v` is not a string. -/
def pyLower : Json → Except String String
  | Json.s v => Except.ok (lowerStr v)
  | _ => Except.error "AttributeError: object has no attribute lower"

/-- Python `v > 0`.  Booleans are integers in Python (`True > 0` holds);
other non-numeric values raise `TypeError`. -/
def pyGtZero : Json → Except String Bool
  | Json.i n => Except.ok (decide (0 < n))
  | Json.b v => Except.ok v
  | _ => Except.error "TypeError: not supported between instances"

/-- Python `v >= k` for an integer literal `k`. -/
def pyGeInt : Json → Int → Except String Bool
  | Json.i n, k => Except.ok (decide (k ≤ n))
  | Json.b v, k => Except.ok (decide (k ≤ (if v then (1 : Int) else 0)))
  | _, _ => Except.error "TypeError: not supported between instances"

/-- Python `v < k` for an integer literal `k`. -/
def pyLtInt : Json → Int → Except String Bool
  | Json.i n, k => Except.ok (decide (n < k))
  | Json.b v, k => Except.ok (decide ((if v then (1 : Int) else 0) < k))
  | _, _ => Except.error "TypeError: not supported between instances"

/-- Python `iter(v)`: lists yield their elements, strings their
characters, dicts their keys; other values raise `TypeError`. -/
def pyIter : Json → Except String (List Json)
  | Json.arr v => Except.ok v
  | Json.s v => Except.ok (v.data.map (fun c => Json.s (String.mk [c])))
  | Json.obj o => Except.ok (o.map (fun p => Json.s p.1))
  | _ => Except.error "TypeError: object is not iterable"

/-- Python `str(v)` / f-string interpolation.  Only the integer and bool
cases are reachable where this is applied in the pipeline (the value has
already passed an order comparison); container rendering is abbreviated. -/
def pyStr : Json → String
  | Json.i n => toString n
  | Json.b true => "True"
  | Json.b false => "False"
  | Json.s v => v
  | Json.null => "None"
  | Json.arr _ => "[...]"
  | Json.obj _ => "\x7b...\x7d"

/-- Python substring test `needle in hay` on char lists: prefix test. -/
def isPrefixCL : List Char → List Char → Bool
  | [], _ => true
  | _ :: _, [] => false
  | a :: as, c :: cs => a == c && isPrefixCL as cs

/-- Python substring test `needle in hay` on char lists. -/
def containsCL (needle : List Char) : List Char → Bool
  | [] => isPrefixCL needle []
  | c :: cs => isPrefixCL needle (c :: cs) || containsCL needle cs

/-- Python string containment `needle in hay`. -/
def strContains (hay needle : String) : Bool :=
  containsCL needle.data hay.data

/-- Whitespace stripped by Python `str.strip()` (the ASCII part). -/
def isSpaceChar (c : Char) : Bool :=
  c == ' ' || c == '\t' || c == '\n' || c == '\r' || c == '\x0b' || c == '\x0c'

/-- Python `s.strip()`: leading and trailing whitespace removed. -/
def pyStrip (s : String) : String :=
  String.mk (((s.data.dropWhile isSpaceChar).reverse.dropWhile isSpaceChar).reverse)

/-- Outcome of one agent method body up to (and including) `json.loads`:
either the parsed response object, or the exception message `str(e)` of
whatever the body raised (network error, timeout, malformed JSON, bad
prompt input, ...). -/
inductive StageOutcome where
  | exn (msg : String) : StageOutcome
  | ok (result : Obj) : StageOutcome

/-- The four external stages of the pipeline, in the order
`review_contract` invokes their agent methods. -/
inductive Stage where
  | clauseDetection : Stage
  | riskAnalysis : Stage
  | languageClarity : Stage
  | redlineSuggestion : Stage
deriving DecidableEq, Repr

/-- One pipeline run environment: the outcome each agent call would
produce.  Quantifying theorems over `Env` covers every behaviour of the
external inference service. -/
structure Env where
  clause : StageOutcome
  risk : StageOutcome
  clarity : StageOutcome
  redline : StageOutcome

/-- Except-handler result of `ClauseDetectorAgent.detect_clauses`
(`src/agents/clause_detector_agent.py`, lines 95-104). -/
def clauseErrorDefault (e : String) : Obj :=
  [("error", Json.s ("Failed to detect clauses: " ++ e)),
   ("detected_clauses", Json.arr []),
   ("clause_summary", Json.obj
     [("total_clauses_found", Json.i 0),
      ("high_importance_count", Json.i 0),
      ("coverage_assessment", Json.s "Analysis failed due to error")])]

/-- Except-handler result of `RiskAnalysisAgent.analyze_risks`
(`src/agents/risk_analysis_agent.py`, lines 111-124). -/
def riskErrorDefault (e : String) : Obj :=
  [("error", Json.s ("Failed to analyze risks: " ++ e)),
   ("risk_analysis", Json.arr []),
   ("overall_risk_assessment", Json.obj
     [("total_risks_identified", Json.i 0),
      ("high_severity_count", Json.i 0),
      ("medium_severity_count", Json.i 0),
      ("low_severity_count", Json.i 0),
      ("overall_risk_score", Json.i 0),
      ("key_concerns", Json.arr [Json.s "Risk analysis failed due to error"]),
      ("recommended_action", Json.s "Manual review required - automated analysis unavailable")])]

/-- Except-handler result of `RiskAnalysisAgent.assess_language_clarity`
(`src/agents/risk_analysis_agent.py`, lines 175-181). -/
def clarityErrorDefault (e : String) : Obj :=
  [("error", Json.s ("Failed to assess language clarity: " ++ e)),
   ("clarity_issues", Json.arr []),
   ("clarity_score", Json.i 0),
   ("summary", Json.s "Language clarity analysis failed")]

/-- Except-handler result of `RedlineSuggesterAgent.generate_redlines`
(`src/agents/redline_suggester_agent.py`, lines 131-146). -/
def redlineErrorDefault (e : String) : Obj :=
  [("error", Json.s ("Failed to generate redlines: " ++ e)),
   ("redline_suggestions", Json.arr []),
   ("new_clauses_needed", Json.arr []),
   ("negotiation_strategy", Json.obj
     [("key_positions", Json.arr [Json.s "Manual review required due to analysis error"]),
      ("fallback_options", Json.arr []),
      ("deal_breakers", Json.arr [])]),
   ("summary", Json.obj
     [("total_suggestions", Json.i 0),
      ("critical_changes", Json.i 0),
      ("estimated_risk_reduction", Json.s "Unable to assess - analysis failed")])]

/-- `ClauseDetectorAgent.detect_clauses`: the parsed response, or the
documented default when the body raised. -/
def detect_clauses : StageOutcome → Obj
  | StageOutcome.ok r => r
  | StageOutcome.exn e => clauseErrorDefault e

/-- `RiskAnalysisAgent.analyze_risks`. -/
def analyze_risks : StageOutcome → Obj
  | StageOutcome.ok r => r
  | StageOutcome.exn e => riskErrorDefault e

/-- `RiskAnalysisAgent.assess_language_clarity`. -/
def assess_language_clarity : StageOutcome → Obj
  | StageOutcome.ok r => r
  | StageOutcome.exn e => clarityErrorDefault e

/-- `RedlineSuggesterAgent.generate_redlines`. -/
def generate_redlines : StageOutcome → Obj
  | StageOutcome.ok r => r
  | StageOutcome.exn e => redlineErrorDefault e

/-- Replacement installed by `review_contract` when the risk stage result
carries an error (`src/crew/crew.py`, line 87). -/
def riskReplacement : Obj :=
  [("risk_analysis", Json.arr []), ("overall_risk_assessment", Json.obj [])]

/-- Replacement installed by `review_contract` when the redline stage
result carries an error (`src/crew/crew.py`, line 104). -/
def redlineReplacement : Obj :=
  [("redline_suggestions", Json.arr []), ("new_clauses_needed", Json.arr [])]

/-- The risk-analysis result as seen by the rest of `review_contract`:
lines 82-87 of `src/crew/crew.py`. -/
def effectiveRisk (o : StageOutcome) : Obj :=
  let risk_results := analyze_risks o
  if hasKey risk_results "error" then riskReplacement else risk_results

/-- The redline result as seen by the rest of `review_contract`:
lines 98-104 of `src/crew/crew.py`. -/
def effectiveRedline (o : StageOutcome) : Obj :=
  let redline_results := generate_redlines o
  if hasKey redline_results "error" then redlineReplacement else redline_results

/-- Python `r.get("priority", "").lower()` for one suggestion record
(`src/agents/redline_suggester_agent.py`, lines 159-160 and 175). -/
def prioLower (r : Json) : Except String String :=
  match pyGet r "priority" (Json.s "") with
  | Except.error e => Except.error e
  | Except.ok p => pyLower p

/-- One list comprehension
`[r for r in redline_suggestions if r.get("priority", "").lower() == level]`,
raising at the first element whose lookup or `.lower()` raises. -/
def filterPrio (level : String) : List Json → Except String (List Json)
  | [] => Except.ok []
  | r :: rest =>
    match prioLower r with
    | Except.error e => Except.error e
    | Except.ok p =>
      match filterPrio level rest with
      | Except.error e => Except.error e
      | Except.ok tail => Except.ok (if p == level then r :: tail else tail)

/-- `RedlineSuggesterAgent.prioritize_changes`
(`src/agents/redline_suggester_agent.py`, lines 148-192).  The argument is
whatever `review_contract` passes (line 111-113 of `src/crew/crew.py`:
`redline_results.get("redline_suggestions", [])`), hence an arbitrary JSON
value; the internal `try/except` converts any raised `TypeError` or
`AttributeError` into the documented error object. -/
def prioritize_changes (redline_suggestions : Json) : Obj :=
  match pyIter redline_suggestions with
  | Except.error e =>
    [("error", Json.s ("Failed to prioritize changes: " ++ e)),
     ("implementation_phases", Json.obj []),
     ("negotiation_roadmap", Json.obj [])]
  | Except.ok items =>
    match filterPrio "critical" items with
    | Except.error e =>
      [("error", Json.s ("Failed to prioritize changes: " ++ e)),
       ("implementation_phases", Json.obj []),
       ("negotiation_roadmap", Json.obj [])]
    | Except.ok critical_changes =>
      match filterPrio "high" items with
      | Except.error e =>
        [("error", Json.s ("Failed to prioritize changes: " ++ e)),
         ("implementation_phases", Json.obj []),
         ("negotiation_roadmap", Json.obj [])]
      | Except.ok high_changes =>
        match filterPrio "medium" items with
        | Except.error e =>
          [("error", Json.s ("Failed to prioritize changes: " ++ e)),
           ("implementation_phases", Json.obj []),
           ("negotiation_roadmap", Json.obj [])]
        | Except.ok medium_changes =>
          [("implementation_phases", Json.obj
             [("phase_1_critical", Json.obj
                [("changes", Json.arr critical_changes),
                 ("timeline", Json.s "Address before any signing"),
                 ("negotiation_approach", Json.s "Non-negotiable positions")]),
              ("phase_2_high", Json.obj
                [("changes", Json.arr high_changes),
                 ("timeline", Json.s "Primary negotiation focus"),
                 ("negotiation_approach", Json.s "Strong preference, willing to trade")]),
              ("phase_3_medium", Json.obj
                [("changes", Json.arr medium_changes),
                 ("timeline", Json.s "Secondary negotiation items"),
                 ("negotiation_approach", Json.s "Nice to have improvements")])]),
           ("negotiation_roadmap", Json.obj
             [("must_have_count", Json.i critical_changes.length),
              ("high_priority_count", Json.i high_changes.length),
              ("total_items", Json.i items.length)])]

/-- `ContractReviewCrew._determine_overall_risk_level`
(`src/crew/crew.py`, lines 172-184).  The argument is the value of
`risk_results.get("overall_risk_assessment", {})`, which need not be a
dict for malformed upstream data; comparisons of non-numeric values
raise, and the two conditions of the `elif` are evaluated left to right
with Python short-circuit `or`. -/
def determine_overall_risk_level (risk_summary : Json) : Except String String :=
  match pyGet risk_summary "high_severity_count" (Json.i 0) with
  | Except.error e => Except.error e
  | Except.ok high_risks =>
    match pyGet risk_summary "total_risks_identified" (Json.i 0) with
    | Except.error e => Except.error e
    | Except.ok total_risks =>
      match pyGeInt high_risks 3 with
      | Except.error e => Except.error e
      | Except.ok c3 =>
        if c3 then Except.ok "HIGH"
        else
          match pyGeInt high_risks 1 with
          | Except.error e => Except.error e
          | Except.ok c1 =>
            if c1 then Except.ok "MEDIUM"
            else
              match pyGeInt total_risks 5 with
              | Except.error e => Except.error e
              | Except.ok c5 =>
                if c5 then Except.ok "MEDIUM"
                else
                  match pyGeInt total_risks 1 with
                  | Except.error e => Except.error e
                  | Except.ok ct1 =>
                    if ct1 then Except.ok "LOW" else Except.ok "MINIMAL"

/-- `ContractReviewCrew._assess_contract_quality`
(`src/crew/crew.py`, lines 186-196), with Python short-circuit `and`:
the risk-score comparison is evaluated only when the substring test
succeeded. -/
def assess_contract_quality (clause_summary risk_summary : Json) : Except String String :=
  match pyGet clause_summary "coverage_assessment" (Json.s "") with
  | Except.error e => Except.error e
  | Except.ok cov =>
    match pyLower cov with
    | Except.error e => Except.error e
    | Except.ok coverage =>
      match pyGet risk_summary "overall_risk_score" (Json.i 0) with
      | Except.error e => Except.error e
      | Except.ok risk_score =>
        match (if strContains coverage "comprehensive"
               then pyLtInt risk_score 3 else Except.ok false) with
        | Except.error e => Except.error e
        | Except.ok goodCase =>
          if goodCase then Except.ok "GOOD"
          else
            match (if strContains coverage "adequate"
                   then pyLtInt risk_score 5 else Except.ok false) with
            | Except.error e => Except.error e
            | Except.ok fairCase =>
              if fairCase then Except.ok "FAIR"
              else Except.ok "NEEDS_IMPROVEMENT"

/-- `ContractReviewCrew._generate_next_steps`
(`src/crew/crew.py`, lines 198-217).  Both arguments are actual dicts by
the time this is called, but the nested values they hold need not be, so
the inner lookups and the `> 0` comparisons can raise; this function has
no handler of its own and any such exception escapes to the handler of
`review_contract`. -/
def generate_next_steps (risk_results redline_results : Obj) : Except String (List Json) :=
  match pyGet (dget risk_results "overall_risk_assessment" (Json.obj []))
      "high_severity_count" (Json.i 0) with
  | Except.error e => Except.error e
  | Except.ok high_risks =>
    match pyGet (dget redline_results "summary" (Json.obj []))
        "critical_changes" (Json.i 0) with
    | Except.error e => Except.error e
    | Except.ok critical_changes =>
      match pyGtZero critical_changes with
      | Except.error e => Except.error e
      | Except.ok bCrit =>
        let steps1 : List Json :=
          if bCrit
          then [Json.s ("Address " ++ pyStr critical_changes ++
                  " critical redline suggestions before proceeding")]
          else []
        match pyGtZero high_risks with
        | Except.error e => Except.error e
        | Except.ok bHigh =>
          let steps2 := steps1 ++
            (if bHigh
             then [Json.s ("Mitigate " ++ pyStr high_risks ++
                     " high-severity risks identified")]
             else [])
          Except.ok (steps2 ++
            [Json.s "Review all redline suggestions with legal counsel",
             Json.s "Negotiate key terms with counterparty",
             Json.s "Obtain final legal approval before signing"])

/-- Body of the `try` block of
`ContractReviewCrew._generate_executive_summary`
(`src/crew/crew.py`, lines 144-164); the lookups and derivations are
evaluated in the order the nested dict literal evaluates them. -/
def executive_summary_body (clause_results risk_results redline_results : Obj) :
    Except String Obj := do
  let clause_summary := dget clause_results "clause_summary" (Json.obj [])
  let risk_summary := dget risk_results "overall_risk_assessment" (Json.obj [])
  let redline_summary := dget redline_results "summary" (Json.obj [])
  let clauses_analyzed ← pyGet clause_summary "total_clauses_found" (Json.i 0)
  let high_importance ← pyGet clause_summary "high_importance_count" (Json.i 0)
  let risks_identified ← pyGet risk_summary "total_risks_identified" (Json.i 0)
  let high_severity ← pyGet risk_summary "high_severity_count" (Json.i 0)
  let redline_count ← pyGet redline_summary "total_suggestions" (Json.i 0)
  let critical_needed ← pyGet redline_summary "critical_changes" (Json.i 0)
  let risk_level ← determine_overall_risk_level risk_summary
  let quality ← assess_contract_quality clause_summary risk_summary
  let recommended ← pyGet risk_summary "recommended_action" (Json.s "Review recommended")
  let key_concerns ← pyGet risk_summary "key_concerns" (Json.arr [])
  return [("contract_overview", Json.obj
            [("clauses_analyzed", clauses_analyzed),
             ("high_importance_clauses", high_importance),
             ("risks_identified", risks_identified),
             ("high_severity_risks", high_severity),
             ("redline_suggestions", redline_count),
             ("critical_changes_needed", critical_needed)]),
          ("overall_assessment", Json.obj
            [("risk_level", Json.s risk_level),
             ("contract_quality", Json.s quality),
             ("recommended_action", recommended),
             ("key_concerns", key_concerns)])]

/-- `ContractReviewCrew._generate_executive_summary`
(`src/crew/crew.py`, lines 142-170), including its own `except` handler. -/
def generate_executive_summary (clause_results risk_results redline_results : Obj) : Obj :=
  match executive_summary_body clause_results risk_results redline_results with
  | Except.ok r => r
  | Except.error e =>
    [("error", Json.s ("Failed to generate executive summary: " ++ e)),
     ("contract_overview", Json.obj []),
     ("overall_assessment", Json.obj [])]

/-- Result of the outer `except` handler of `review_contract`
(`src/crew/crew.py`, lines 134-140). -/
def tryExceptResult (e : String) : Obj :=
  [("error", Json.s ("Contract review failed: " ++ e)),
   ("success", Json.b false)]

/-- A completed run: the returned dict plus, for the call-count claims,
the ordered list of agent methods that were invoked (each agent method
performs exactly one inference-client call). -/
structure RunResult where
  result : Obj
  calls : List Stage

/-- The full call list of a run that reached phase 3. -/
def allStages : List Stage :=
  [Stage.clauseDetection, Stage.riskAnalysis, Stage.languageClarity, Stage.redlineSuggestion]

/-- `ContractReviewCrew.review_contract` (`src/crew/crew.py`, lines
49-140).  The `match ... | Except.error e => tryExceptResult e` branches
are the points at which the `try` body can raise (the `len()` calls of
the progress prints, and `_generate_next_steps`); every other operation
of the body is total.  The early `return` on a stage-1 error is the
short-circuit of lines 73-75. -/
def review_contract (env : Env) (contract_text : String) : RunResult :=
  if pyStrip contract_text = "" then
    { result := [("error", Json.s "No contract text provided for review"),
                 ("success", Json.b false)],
      calls := [] }
  else
    let clause_results := detect_clauses env.clause
    if hasKey clause_results "error" then
      { result := [("error", dget clause_results "error" Json.null),
                   ("success", Json.b false)],
        calls := [Stage.clauseDetection] }
    else
      let detected_clauses := dget clause_results "detected_clauses" (Json.arr [])
      match pyLen detected_clauses with
      | Except.error e =>
        { result := tryExceptResult e, calls := [Stage.clauseDetection] }
      | Except.ok _ =>
        let risk_results := effectiveRisk env.risk
        match pyLen (dget risk_results "risk_analysis" (Json.arr [])) with
        | Except.error e =>
          { result := tryExceptResult e,
            calls := [Stage.clauseDetection, Stage.riskAnalysis] }
        | Except.ok _ =>
          let clarity_results := assess_language_clarity env.clarity
          let redline_results := effectiveRedline env.redline
          match pyLen (dget redline_results "redline_suggestions" (Json.arr [])) with
          | Except.error e => { result := tryExceptResult e, calls := allStages }
          | Except.ok _ =>
            let prioritization :=
              prioritize_changes (dget redline_results "redline_suggestions" (Json.arr []))
            let executive_summary :=
              generate_executive_summary clause_results risk_results redline_results
            match generate_next_steps risk_results redline_results with
            | Except.error e => { result := tryExceptResult e, calls := allStages }
            | Except.ok next_steps =>
              { result :=
                  [("success", Json.b true),
                   ("contract_analysis", Json.obj
                     [("clause_detection", Json.obj clause_results),
                      ("risk_analysis", Json.obj risk_results),
                      ("language_clarity", Json.obj clarity_results),
                      ("redline_suggestions", Json.obj redline_results),
                      ("change_prioritization", Json.obj prioritization)]),
                   ("executive_summary", Json.obj executive_summary),
                   ("next_steps", Json.arr next_steps)],
                calls := allStages }

/-- The `contract_analysis` object of a returned report. -/
def asObj : Json → Obj
  | Json.obj o => o
  | _ => []

/-- One stage slot of a returned report. -/
def stageSlot (result : Obj) (name : String) : Json :=
  dget (asObj (dget result "contract_analysis" Json.null)) name Json.null

/-!
Well-shapedness of stage responses.  The specification (sections 4.1 and
6) works in an abstraction where a stage either yields a response of the
documented shape or fails and is replaced by its degraded default, so
the pipeline theorems quantify over environments whose `ok` outcomes
conform, on exactly the fields the orchestrator dereferences, to the
documented shapes; `exn` outcomes are unrestricted.
-/

/-- The value at `k` (after defaulting) is a JSON array. -/
def isArrAt (r : Obj) (k : String) : Bool :=
  match dget r k (Json.arr []) with
  | Json.arr _ => true
  | _ => false

/-- The value bound at `k`, if any, is an integer. -/
def intIfPresent (o : Obj) (k : String) : Bool :=
  match dlookup o k with
  | none => true
  | some (Json.i _) => true
  | some _ => false

/-- Shape of a clause-detection response the orchestrator can consume: an
error response must carry a non-empty error string (as every handler
emits), and a non-error response must hold its clause list in a JSON
array. -/
def wellShapedClause (r : Obj) : Bool :=
  match dlookup r "error" with
  | some (Json.s e) => !(e == "")
  | some _ => false
  | none => isArrAt r "detected_clauses"

/-- Shape of a risk-analysis response the orchestrator can consume.  A
response carrying an error key is unconstrained (it is replaced by
`riskReplacement` wholesale). -/
def wellShapedRisk (r : Obj) : Bool :=
  hasKey r "error" ||
  (isArrAt r "risk_analysis" &&
    (match dget r "overall_risk_assessment" (Json.obj []) with
     | Json.obj o => intIfPresent o "high_severity_count"
     | _ => false))

/-- Shape of a redline response the orchestrator can consume.  A response
carrying an error key is unconstrained (it is replaced by
`redlineReplacement` wholesale). -/
def wellShapedRedline (r : Obj) : Bool :=
  hasKey r "error" ||
  (isArrAt r "redline_suggestions" &&
    (match dget r "summary" (Json.obj []) with
     | Json.obj o => intIfPresent o "critical_changes"
     | _ => false))

/-- Apply a shape check to the `ok` case of an outcome. -/
def wellShapedOutcome (check : Obj → Bool) : StageOutcome → Bool
  | StageOutcome.exn _ => true
  | StageOutcome.ok r => check r

/-- Every `ok` outcome of the environment is consumable.  The clarity
stage needs no check: its result is embedded in the report verbatim and
never dereferenced by the orchestrator. -/
def wellShapedEnv (env : Env) : Bool :=
  wellShapedOutcome wellShapedClause env.clause &&
  wellShapedOutcome wellShapedRisk env.risk &&
  wellShapedOutcome wellShapedRedline env.redline

/-!
Specification-side definitions.  These restate, in the words of the
specification, the derivation rules and input classes the claims talk
about; the theorems compare them with the source-translated functions
above.
-/

/-- A suggestion record as the specification describes the
`prioritizeChanges` input: a record whose `priority` field, when present,
is a string. -/
def isSuggestionRecord (r : Json) : Bool :=
  match r with
  | Json.obj fields =>
    (match dlookup fields "priority" with
     | none => true
     | some (Json.s _) => true
     | some _ => false)
  | _ => false

/-- The lower-cased priority of a suggestion record (empty when the field
is absent), i.e. the value each bucket filter compares. -/
def prioKey (r : Json) : String :=
  match r with
  | Json.obj fields =>
    (match dlookup fields "priority" with
     | some (Json.s p) => lowerStr p
     | _ => "")
  | _ => ""

/-- Modelled from the spec, section 4.1: the `overallRiskLevel` derivation
rule, first match winning. -/
def riskLevelSpec (high total : Int) : String :=
  if 3 ≤ high then "HIGH"
  else if 1 ≤ high ∨ 5 ≤ total then "MEDIUM"
  else if 1 ≤ total then "LOW"
  else "MINIMAL"

/-- Modelled from the spec, section 4.1: the `contractQuality` derivation
rule (case-insensitive substring containment). -/
def qualitySpec (coverage : String) (score : Int) : String :=
  if strContains (lowerStr coverage) "comprehensive" ∧ score < 3 then "GOOD"
  else if strContains (lowerStr coverage) "adequate" ∧ score < 5 then "FAIR"
  else "NEEDS_IMPROVEMENT"

/-- Modelled from the spec, section 4.1: the `nextSteps` recipe. -/
def nextStepsSpec (critical_changes high_risks : Int) : List Json :=
  (if 0 < critical_changes
   then [Json.s ("Address " ++ toString critical_changes ++
           " critical redline suggestions before proceeding")]
   else []) ++
  (if 0 < high_risks
   then [Json.s ("Mitigate " ++ toString high_risks ++
           " high-severity risks identified")]
   else []) ++
  [Json.s "Review all redline suggestions with legal counsel",
   Json.s "Negotiate key terms with counterparty",
   Json.s "Obtain final legal approval before signing"]

/-!
Concrete sample data used by the witness and counterexample theorems.
-/

/-- A schema-conformant clause-detection response. -/
def sampleClauseResult : Obj :=
  [("detected_clauses", Json.arr
     [Json.obj [("clause_type", Json.s "Termination"),
                ("clause_text", Json.s "Either party may terminate."),
                ("importance_level", Json.s "High")]]),
   ("clause_summary", Json.obj
     [("total_clauses_found", Json.i 1),
      ("high_importance_count", Json.i 1),
      ("coverage_assessment", Json.s "Adequate coverage of key areas")])]

/-- A schema-conformant risk-analysis response. -/
def sampleRiskResult : Obj :=
  [("risk_analysis", Json.arr
     [Json.obj [("risk_type", Json.s "Liability"),
                ("severity_level", Json.s "High")]]),
   ("overall_risk_assessment", Json.obj
     [("total_risks_identified", Json.i 1),
      ("high_severity_count", Json.i 1),
      ("overall_risk_score", Json.i 4),
      ("key_concerns", Json.arr [Json.s "Unlimited liability"]),
      ("recommended_action", Json.s "Negotiate a liability cap")])]

/-- A schema-conformant clarity response. -/
def sampleClarityResult : Obj :=
  [("clarity_issues", Json.arr []),
   ("clarity_score", Json.i 8),
   ("summary", Json.s "Mostly clear language")]

/-- A schema-conformant redline response. -/
def sampleRedlineResult : Obj :=
  [("redline_suggestions", Json.arr
     [Json.obj [("change_type", Json.s "modify"),
                ("priority", Json.s "Critical")]]),
   ("new_clauses_needed", Json.arr []),
   ("summary", Json.obj
     [("total_suggestions", Json.i 1),
      ("critical_changes", Json.i 1),
      ("estimated_risk_reduction", Json.s "moderate")])]

/-- An environment in which every stage call succeeds. -/
def envAllOk : Env :=
  { clause := StageOutcome.ok sampleClauseResult,
    risk := StageOutcome.ok sampleRiskResult,
    clarity := StageOutcome.ok sampleClarityResult,
    redline := StageOutcome.ok sampleRedlineResult }

/-- An environment in which the clause-detection client call raises. -/
def envClauseFail : Env :=
  { clause := StageOutcome.exn "Connection error",
    risk := StageOutcome.ok sampleRiskResult,
    clarity := StageOutcome.ok sampleClarityResult,
    redline := StageOutcome.ok sampleRedlineResult }

/-- An environment in which only the risk-analysis client call raises. -/
def envRiskFail : Env :=
  { clause := StageOutcome.ok sampleClauseResult,
    risk := StageOutcome.exn "Request timed out",
    clarity := StageOutcome.ok sampleClarityResult,
    redline := StageOutcome.ok sampleRedlineResult }

/-- The concrete prioritization input of specification section 8, with a
priority-free record appended. -/
def sampleSuggestions : List Json :=
  [Json.obj [("priority", Json.s "Critical"), ("original_text", Json.s "a")],
   Json.obj [("priority", Json.s "High"), ("original_text", Json.s "b")],
   Json.obj [("priority", Json.s "low"), ("original_text", Json.s "c")],
   Json.obj [("priority", Json.s "HIGH"), ("original_text", Json.s "d")],
   Json.obj [("original_text", Json.s "e")]]

/-!
Claim theorems, preceded by the helper lemmas they share.
-/

theorem prioLower_record (r : Json) (h : isSuggestionRecord r = true) :
    prioLower r = Except.ok (prioKey r) := by
  cases r with
  | obj fields =>
    simp only [prioLower, pyGet, prioKey]
    rcases hl : dlookup fields "priority" with _ | v
    · simp [dget, hl, pyLower, lowerStr]
    · rcases v <;> simp [isSuggestionRecord, hl] at h <;>
        simp [dget, hl, pyLower]
  | _ => simp [isSuggestionRecord] at h

theorem filterPrio_records (level : String) (rs : List Json)
    (h : ∀ r ∈ rs, isSuggestionRecord r = true) :
    filterPrio level rs =
      Except.ok (rs.filter (fun r => prioKey r == level)) := by
  induction rs with
  | nil => rfl
  | cons r rest ih =>
    have hr : isSuggestionRecord r = true := h r (List.mem_cons_self r rest)
    have hrest : ∀ x ∈ rest, isSuggestionRecord x = true :=
      fun x hx => h x (List.mem_cons_of_mem r hx)
    simp [filterPrio, prioLower_record r hr, ih hrest, List.filter_cons]

theorem prioritize_changes_records (rs : List Json)
    (h : ∀ r ∈ rs, isSuggestionRecord r = true) :
    prioritize_changes (Json.arr rs) =
      [("implementation_phases", Json.obj
         [("phase_1_critical", Json.obj
            [("changes", Json.arr (rs.filter (fun r => prioKey r == "critical"))),
             ("timeline", Json.s "Address before any signing"),
             ("negotiation_approach", Json.s "Non-negotiable positions")]),
          ("phase_2_high", Json.obj
            [("changes", Json.arr (rs.filter (fun r => prioKey r == "high"))),
             ("timeline", Json.s "Primary negotiation focus"),
             ("negotiation_approach", Json.s "Strong preference, willing to trade")]),
          ("phase_3_medium", Json.obj
            [("changes", Json.arr (rs.filter (fun r => prioKey r == "medium"))),
             ("timeline", Json.s "Secondary negotiation items"),
             ("negotiation_approach", Json.s "Nice to have improvements")])]),
       ("negotiation_roadmap", Json.obj
         [("must_have_count", Json.i (rs.filter (fun r => prioKey r == "critical")).length),
          ("high_priority_count", Json.i (rs.filter (fun r => prioKey r == "high")).length),
          ("total_items", Json.i rs.length)])] := by
  simp [prioritize_changes, pyIter, filterPrio_records _ rs h]

/-- C6: for every input list of suggestion records, `prioritize_changes`
partitions the list into three buckets by exact case-insensitive match of
the priority field against critical, high and medium; an item matching
one of the three lands in exactly one bucket, any other or absent
priority lands in none; `must_have_count` and `high_priority_count`
report the critical and high bucket sizes, `total_items` the input
length; and the three phases carry exactly the documented literal
timeline and negotiation-approach labels. -/
theorem prioritization_partition (rs : List Json)
    (h : ∀ r ∈ rs, isSuggestionRecord r = true) :
    prioritize_changes (Json.arr rs) =
      [("implementation_phases", Json.obj
         [("phase_1_critical", Json.obj
            [("changes", Json.arr (rs.filter (fun r => prioKey r == "critical"))),
             ("timeline", Json.s "Address before any signing"),
             ("negotiation_approach", Json.s "Non-negotiable positions")]),
          ("phase_2_high", Json.obj
            [("changes", Json.arr (rs.filter (fun r => prioKey r == "high"))),
             ("timeline", Json.s "Primary negotiation focus"),
             ("negotiation_approach", Json.s "Strong preference, willing to trade")]),
          ("phase_3_medium", Json.obj
            [("changes", Json.arr (rs.filter (fun r => prioKey r == "medium"))),
             ("timeline", Json.s "Secondary negotiation items"),
             ("negotiation_approach", Json.s "Nice to have improvements")])]),
       ("negotiation_roadmap", Json.obj
         [("must_have_count", Json.i (rs.filter (fun r => prioKey r == "critical")).length),
          ("high_priority_count", Json.i (rs.filter (fun r => prioKey r == "high")).length),
          ("total_items", Json.i rs.length)])] ∧
    (∀ r ∈ rs, prioKey r = "critical" →
      r ∈ rs.filter (fun r => prioKey r == "critical") ∧
      r ∉ rs.filter (fun r => prioKey r == "high") ∧
      r ∉ rs.filter (fun r => prioKey r == "medium")) ∧
    (∀ r ∈ rs, prioKey r = "high" →
      r ∉ rs.filter (fun r => prioKey r == "critical") ∧
      r ∈ rs.filter (fun r => prioKey r == "high") ∧
      r ∉ rs.filter (fun r => prioKey r == "medium")) ∧
    (∀ r ∈ rs, prioKey r = "medium" →
      r ∉ rs.filter (fun r => prioKey r == "critical") ∧
      r ∉ rs.filter (fun r => prioKey r == "high") ∧
      r ∈ rs.filter (fun r => prioKey r == "medium")) ∧
    (∀ r ∈ rs, prioKey r ≠ "critical" → prioKey r ≠ "high" → prioKey r ≠ "medium" →
      r ∉ rs.filter (fun r => prioKey r == "critical") ∧
      r ∉ rs.filter (fun r => prioKey r == "high") ∧
      r ∉ rs.filter (fun r => prioKey r == "medium")) := by
  refine ⟨prioritize_changes_records rs h, ?_, ?_, ?_, ?_⟩ <;>
    intro r hr hp <;> simp_all [List.mem_filter]

/-- Witness for C6 at the concrete input of specification section 8:
one Critical, one High, one low, one HIGH and one priority-free record. -/
theorem prioritization_partition_witness :
    (∀ r ∈ sampleSuggestions, isSuggestionRecord r = true) ∧
    prioritize_changes (Json.arr sampleSuggestions) =
      [("implementation_phases", Json.obj
         [("phase_1_critical", Json.obj
            [("changes", Json.arr
               [Json.obj [("priority", Json.s "Critical"), ("original_text", Json.s "a")]]),
             ("timeline", Json.s "Address before any signing"),
             ("negotiation_approach", Json.s "Non-negotiable positions")]),
          ("phase_2_high", Json.obj
            [("changes", Json.arr
               [Json.obj [("priority", Json.s "High"), ("original_text", Json.s "b")],
                Json.obj [("priority", Json.s "HIGH"), ("original_text", Json.s "d")]]),
             ("timeline", Json.s "Primary negotiation focus"),
             ("negotiation_approach", Json.s "Strong preference, willing to trade")]),
          ("phase_3_medium", Json.obj
            [("changes", Json.arr []),
             ("timeline", Json.s "Secondary negotiation items"),
             ("negotiation_approach", Json.s "Nice to have improvements")])]),
       ("negotiation_roadmap", Json.obj
         [("must_have_count", Json.i 1),
          ("high_priority_count", Json.i 2),
          ("total_items", Json.i 5)])] :=
  ⟨by decide, (prioritization_partition sampleSuggestions (by decide)).1⟩

/-- C10 (implicit): each phase bucket is a stable filter of the input —
it equals the subsequence of input items whose lower-cased priority
matches the bucket level, in input order, with no duplication beyond the
input (each bucket is a sublist of the input). -/
theorem prioritization_stability (rs : List Json)
    (h : ∀ r ∈ rs, isSuggestionRecord r = true) :
    ∃ b1 b2 b3 : List Json,
      prioritize_changes (Json.arr rs) =
        [("implementation_phases", Json.obj
           [("phase_1_critical", Json.obj
              [("changes", Json.arr b1),
               ("timeline", Json.s "Address before any signing"),
               ("negotiation_approach", Json.s "Non-negotiable positions")]),
            ("phase_2_high", Json.obj
              [("changes", Json.arr b2),
               ("timeline", Json.s "Primary negotiation focus"),
               ("negotiation_approach", Json.s "Strong preference, willing to trade")]),
            ("phase_3_medium", Json.obj
              [("changes", Json.arr b3),
               ("timeline", Json.s "Secondary negotiation items"),
               ("negotiation_approach", Json.s "Nice to have improvements")])]),
         ("negotiation_roadmap", Json.obj
           [("must_have_count", Json.i b1.length),
            ("high_priority_count", Json.i b2.length),
            ("total_items", Json.i rs.length)])] ∧
      b1 = rs.filter (fun r => prioKey r == "critical") ∧ b1.Sublist rs ∧
      b2 = rs.filter (fun r => prioKey r == "high") ∧ b2.Sublist rs ∧
      b3 = rs.filter (fun r => prioKey r == "medium") ∧ b3.Sublist rs := by
  refine ⟨_, _, _, prioritize_changes_records rs h, rfl, List.filter_sublist _,
    rfl, List.filter_sublist _, rfl, List.filter_sublist _⟩

/-- Witness for C10 at the concrete sample input. -/
theorem prioritization_stability_witness :
    (∀ r ∈ sampleSuggestions, isSuggestionRecord r = true) ∧
    ∃ b1 b2 b3 : List Json,
      prioritize_changes (Json.arr sampleSuggestions) =
        [("implementation_phases", Json.obj
           [("phase_1_critical", Json.obj
              [("changes", Json.arr b1),
               ("timeline", Json.s "Address before any signing"),
               ("negotiation_approach", Json.s "Non-negotiable positions")]),
            ("phase_2_high", Json.obj
              [("changes", Json.arr b2),
               ("timeline", Json.s "Primary negotiation focus"),
               ("negotiation_approach", Json.s "Strong preference, willing to trade")]),
            ("phase_3_medium", Json.obj
              [("changes", Json.arr b3),
               ("timeline", Json.s "Secondary negotiation items"),
               ("negotiation_approach", Json.s "Nice to have improvements")])]),
         ("negotiation_roadmap", Json.obj
           [("must_have_count", Json.i b1.length),
            ("high_priority_count", Json.i b2.length),
            ("total_items", Json.i sampleSuggestions.length)])] ∧
      b1 = sampleSuggestions.filter (fun r => prioKey r == "critical") ∧
      b1.Sublist sampleSuggestions ∧
      b2 = sampleSuggestions.filter (fun r => prioKey r == "high") ∧
      b2.Sublist sampleSuggestions ∧
      b3 = sampleSuggestions.filter (fun r => prioKey r == "medium") ∧
      b3.Sublist sampleSuggestions :=
  ⟨by decide, prioritization_stability sampleSuggestions (by decide)⟩

/-!
Pipeline lemmas shared by the `review_contract` claims.
-/

theorem intIfPresent_dget (o : Obj) (k : String) (h : intIfPresent o k = true) :
    ∃ n : Int, dget o k (Json.i 0) = Json.i n := by
  simp only [intIfPresent] at h
  rcases hl : dlookup o k with _ | v
  · exact ⟨0, by simp [dget, hl]⟩
  · rcases v with _ | _ | n | _ | _ | _ <;> simp [hl] at h
    exact ⟨n, by simp [dget, hl]⟩

theorem isArrAt_dget (r : Obj) (k : String) (h : isArrAt r k = true) :
    ∃ xs : List Json, dget r k (Json.arr []) = Json.arr xs := by
  simp only [isArrAt] at h
  rcases hv : dget r k (Json.arr []) with _ | _ | _ | _ | xs | _ <;>
    simp [hv] at h <;> exact ⟨xs, rfl⟩

theorem effectiveRisk_exn (m : String) :
    effectiveRisk (StageOutcome.exn m) = riskReplacement := by
  simp [effectiveRisk, analyze_risks, riskErrorDefault, hasKey, dlookup, List.find?]

theorem effectiveRedline_exn (m : String) :
    effectiveRedline (StageOutcome.exn m) = redlineReplacement := by
  simp [effectiveRedline, generate_redlines, redlineErrorDefault, hasKey, dlookup, List.find?]

theorem effectiveRisk_shape (o : StageOutcome)
    (h : wellShapedOutcome wellShapedRisk o = true) :
    (∃ xs, dget (effectiveRisk o) "risk_analysis" (Json.arr []) = Json.arr xs) ∧
    (∃ oo, dget (effectiveRisk o) "overall_risk_assessment" (Json.obj []) = Json.obj oo ∧
      intIfPresent oo "high_severity_count" = true) := by
  cases o with
  | exn m =>
    rw [effectiveRisk_exn]
    exact ⟨⟨[], rfl⟩, ⟨[], rfl, rfl⟩⟩
  | ok r =>
    simp only [wellShapedOutcome, wellShapedRisk] at h
    rcases he : hasKey r "error" with _ | _
    · simp only [he, Bool.false_or, Bool.and_eq_true] at h
      have heff : effectiveRisk (StageOutcome.ok r) = r := by
        simp [effectiveRisk, analyze_risks, he]
      rw [heff]
      refine ⟨isArrAt_dget r _ h.1, ?_⟩
      rcases hv : dget r "overall_risk_assessment" (Json.obj []) with _ | _ | _ | _ | _ | oo <;>
        rw [hv] at h <;> simp at h
      exact ⟨oo, rfl, h.2⟩
    · have heff : effectiveRisk (StageOutcome.ok r) = riskReplacement := by
        simp [effectiveRisk, analyze_risks, he]
      rw [heff]
      exact ⟨⟨[], rfl⟩, ⟨[], rfl, rfl⟩⟩

theorem effectiveRedline_shape (o : StageOutcome)
    (h : wellShapedOutcome wellShapedRedline o = true) :
    (∃ xs, dget (effectiveRedline o) "redline_suggestions" (Json.arr []) = Json.arr xs) ∧
    (∃ oo, dget (effectiveRedline o) "summary" (Json.obj []) = Json.obj oo ∧
      intIfPresent oo "critical_changes" = true) := by
  cases o with
  | exn m =>
    rw [effectiveRedline_exn]
    exact ⟨⟨[], rfl⟩, ⟨[], rfl, rfl⟩⟩
  | ok r =>
    simp only [wellShapedOutcome, wellShapedRedline] at h
    rcases he : hasKey r "error" with _ | _
    · simp only [he, Bool.false_or, Bool.and_eq_true] at h
      have heff : effectiveRedline (StageOutcome.ok r) = r := by
        simp [effectiveRedline, generate_redlines, he]
      rw [heff]
      refine ⟨isArrAt_dget r _ h.1, ?_⟩
      rcases hv : dget r "summary" (Json.obj []) with _ | _ | _ | _ | _ | oo <;>
        rw [hv] at h <;> simp at h
      exact ⟨oo, rfl, h.2⟩
    · have heff : effectiveRedline (StageOutcome.ok r) = redlineReplacement := by
        simp [effectiveRedline, generate_redlines, he]
      rw [heff]
      exact ⟨⟨[], rfl⟩, ⟨[], rfl, rfl⟩⟩

theorem generate_next_steps_ok (rr dr : Obj)
    (h1 : ∃ oo, dget rr "overall_risk_assessment" (Json.obj []) = Json.obj oo ∧
      intIfPresent oo "high_severity_count" = true)
    (h2 : ∃ oo, dget dr "summary" (Json.obj []) = Json.obj oo ∧
      intIfPresent oo "critical_changes" = true) :
    ∃ ns, generate_next_steps rr dr = Except.ok ns := by
  obtain ⟨oo1, hv1, hi1⟩ := h1
  obtain ⟨oo2, hv2, hi2⟩ := h2
  obtain ⟨n1, hn1⟩ := intIfPresent_dget oo1 _ hi1
  obtain ⟨n2, hn2⟩ := intIfPresent_dget oo2 _ hi2
  simp [generate_next_steps, hv1, hv2, pyGet, hn1, hn2, pyGtZero]

theorem review_contract_success (env : Env) (text : String) (cr : Obj)
    (ht : ¬ pyStrip text = "")
    (hc : env.clause = StageOutcome.ok cr)
    (he : hasKey cr "error" = false)
    (ha : isArrAt cr "detected_clauses" = true)
    (hr : wellShapedOutcome wellShapedRisk env.risk = true)
    (hd : wellShapedOutcome wellShapedRedline env.redline = true) :
    ∃ ns, generate_next_steps (effectiveRisk env.risk) (effectiveRedline env.redline) =
        Except.ok ns ∧
      review_contract env text =
        { result :=
            [("success", Json.b true),
             ("contract_analysis", Json.obj
               [("clause_detection", Json.obj cr),
                ("risk_analysis", Json.obj (effectiveRisk env.risk)),
                ("language_clarity", Json.obj (assess_language_clarity env.clarity)),
                ("redline_suggestions", Json.obj (effectiveRedline env.redline)),
                ("change_prioritization", Json.obj (prioritize_changes
                  (dget (effectiveRedline env.redline) "redline_suggestions" (Json.arr []))))]),
             ("executive_summary", Json.obj (generate_executive_summary cr
                (effectiveRisk env.risk) (effectiveRedline env.redline))),
             ("next_steps", Json.arr ns)],
          calls := allStages } := by
  obtain ⟨xs, hxs⟩ := isArrAt_dget cr _ ha
  obtain ⟨⟨xs1, hxs1⟩, hsh1⟩ := effectiveRisk_shape env.risk hr
  obtain ⟨⟨xs2, hxs2⟩, hsh2⟩ := effectiveRedline_shape env.redline hd
  obtain ⟨ns, hns⟩ := generate_next_steps_ok _ _ hsh1 hsh2
  refine ⟨ns, hns, ?_⟩
  simp [review_contract, ht, hc, detect_clauses, he, hxs, hxs1, hxs2, hns, pyLen]

theorem prefix_append_ne_empty (p m : String) (hp : p.data ≠ []) : p ++ m ≠ "" := by
  intro hEq
  have h2 := congrArg String.data hEq
  simp [String.data_append] at h2
  exact hp h2.1

/-- C1: for every contract text that is non-empty after stripping, a run
over any consumable environment returns either success true with all five
stage slots present under `contract_analysis`, or success false with a
non-empty error string; `review_contract` is a total function (it never
raises), and the two cases are exhaustive, so the success payload and the
error string are never both absent. -/
theorem review_contract_dichotomy (env : Env) (text : String)
    (ht : ¬ pyStrip text = "") (hw : wellShapedEnv env = true) :
    (dget (review_contract env text).result "success" Json.null = Json.b true ∧
     ∃ ca : Obj,
       dget (review_contract env text).result "contract_analysis" Json.null = Json.obj ca ∧
       hasKey ca "clause_detection" = true ∧ hasKey ca "risk_analysis" = true ∧
       hasKey ca "language_clarity" = true ∧ hasKey ca "redline_suggestions" = true ∧
       hasKey ca "change_prioritization" = true) ∨
    (dget (review_contract env text).result "success" Json.null = Json.b false ∧
     ∃ e : String,
       dget (review_contract env text).result "error" Json.null = Json.s e ∧ e ≠ "") := by
  simp only [wellShapedEnv, Bool.and_eq_true] at hw
  obtain ⟨⟨hwc, hwr⟩, hwd⟩ := hw
  cases hcl : env.clause with
  | exn m =>
    right
    rw [hcl] at hwc
    have hres : review_contract env text =
        { result := [("error", Json.s ("Failed to detect clauses: " ++ m)),
                     ("success", Json.b false)],
          calls := [Stage.clauseDetection] } := by
      simp [review_contract, ht, hcl, detect_clauses, clauseErrorDefault, hasKey,
        dlookup, List.find?, dget]
    rw [hres]
    exact ⟨rfl, ⟨_, rfl, prefix_append_ne_empty _ m (by decide)⟩⟩
  | ok cr =>
    rw [hcl] at hwc
    simp only [wellShapedOutcome, wellShapedClause] at hwc
    rcases hl : dlookup cr "error" with _ | v
    · rw [hl] at hwc
      have he : hasKey cr "error" = false := by simp [hasKey, hl]
      obtain ⟨ns, hns, hres⟩ :=
        review_contract_success env text cr ht hcl he hwc hwr hwd
      left
      rw [hres]
      refine ⟨rfl, ⟨_, rfl, ?_, ?_, ?_, ?_, ?_⟩⟩ <;> rfl
    · rw [hl] at hwc
      rcases v with _ | _ | _ | e | _ | _ <;> simp at hwc
      right
      have hk : hasKey cr "error" = true := by simp [hasKey, hl]
      have hres : review_contract env text =
          { result := [("error", Json.s e), ("success", Json.b false)],
            calls := [Stage.clauseDetection] } := by
        simp [review_contract, ht, hcl, detect_clauses, hk, dget, hl]
      rw [hres]
      exact ⟨rfl, ⟨e, rfl, by simpa using hwc⟩⟩

/-- Witness for C1 over the all-successful sample environment. -/
theorem review_contract_dichotomy_witness :
    (¬ pyStrip "This agreement is made between the parties." = "" ∧
     wellShapedEnv envAllOk = true) ∧
    ((dget (review_contract envAllOk "This agreement is made between the parties.").result
        "success" Json.null = Json.b true ∧
      ∃ ca : Obj,
        dget (review_contract envAllOk "This agreement is made between the parties.").result
          "contract_analysis" Json.null = Json.obj ca ∧
        hasKey ca "clause_detection" = true ∧ hasKey ca "risk_analysis" = true ∧
        hasKey ca "language_clarity" = true ∧ hasKey ca "redline_suggestions" = true ∧
        hasKey ca "change_prioritization" = true) ∨
     (dget (review_contract envAllOk "This agreement is made between the parties.").result
        "success" Json.null = Json.b false ∧
      ∃ e : String,
        dget (review_contract envAllOk "This agreement is made between the parties.").result
          "error" Json.null = Json.s e ∧ e ≠ "")) :=
  ⟨⟨by decide, by decide⟩,
   review_contract_dichotomy envAllOk "This agreement is made between the parties."
     (by decide) (by decide)⟩

/-- C2: if the clause-detection client call raises, the pipeline
short-circuits: the run returns success false carrying the stage-1 error
string, only the clause-detection agent was invoked, and no later stage
is called. -/
theorem clause_failure_short_circuit (env : Env) (text : String) (m : String)
    (ht : ¬ pyStrip text = "") (hc : env.clause = StageOutcome.exn m) :
    review_contract env text =
      { result := [("error", Json.s ("Failed to detect clauses: " ++ m)),
                   ("success", Json.b false)],
        calls := [Stage.clauseDetection] } ∧
    Stage.riskAnalysis ∉ (review_contract env text).calls ∧
    Stage.languageClarity ∉ (review_contract env text).calls ∧
    Stage.redlineSuggestion ∉ (review_contract env text).calls := by
  have hres : review_contract env text =
      { result := [("error", Json.s ("Failed to detect clauses: " ++ m)),
                   ("success", Json.b false)],
        calls := [Stage.clauseDetection] } := by
    simp [review_contract, ht, hc, detect_clauses, clauseErrorDefault, hasKey,
      dlookup, List.find?, dget]
  rw [hres]
  exact ⟨rfl, by simp, by simp, by simp⟩

/-- Witness for C2 with a failing clause-detection call. -/
theorem clause_failure_short_circuit_witness :
    ¬ pyStrip "This agreement is made between the parties." = "" ∧
    (review_contract envClauseFail "This agreement is made between the parties." =
      { result := [("error", Json.s ("Failed to detect clauses: " ++ "Connection error")),
                   ("success", Json.b false)],
        calls := [Stage.clauseDetection] } ∧
     Stage.riskAnalysis ∉
       (review_contract envClauseFail "This agreement is made between the parties.").calls ∧
     Stage.languageClarity ∉
       (review_contract envClauseFail "This agreement is made between the parties.").calls ∧
     Stage.redlineSuggestion ∉
       (review_contract envClauseFail "This agreement is made between the parties.").calls) :=
  ⟨by decide,
   clause_failure_short_circuit envClauseFail "This agreement is made between the parties."
     "Connection error" (by decide) rfl⟩

/-- C3: if the risk-analysis client call raises but clause detection
succeeded, the run still returns success true and the risk-analysis slot
is exactly the documented empty default. -/
theorem risk_failure_soft_default (env : Env) (text : String) (cr : Obj) (m : String)
    (ht : ¬ pyStrip text = "") (hc : env.clause = StageOutcome.ok cr)
    (he : hasKey cr "error" = false) (ha : isArrAt cr "detected_clauses" = true)
    (hm : env.risk = StageOutcome.exn m)
    (hd : wellShapedOutcome wellShapedRedline env.redline = true) :
    dget (review_contract env text).result "success" Json.null = Json.b true ∧
    stageSlot (review_contract env text).result "risk_analysis" =
      Json.obj [("risk_analysis", Json.arr []), ("overall_risk_assessment", Json.obj [])] := by
  have hr : wellShapedOutcome wellShapedRisk env.risk = true := by
    rw [hm]; rfl
  obtain ⟨ns, hns, hres⟩ := review_contract_success env text cr ht hc he ha hr hd
  rw [hres]
  refine ⟨rfl, ?_⟩
  simp [stageSlot, dget, dlookup, List.find?, asObj, hm, effectiveRisk_exn, riskReplacement]

/-- Witness for C3 with a failing risk-analysis call. -/
theorem risk_failure_soft_default_witness :
    (¬ pyStrip "This agreement is made between the parties." = "" ∧
     hasKey sampleClauseResult "error" = false ∧
     isArrAt sampleClauseResult "detected_clauses" = true ∧
     wellShapedOutcome wellShapedRedline envRiskFail.redline = true) ∧
    (dget (review_contract envRiskFail "This agreement is made between the parties.").result
       "success" Json.null = Json.b true ∧
     stageSlot (review_contract envRiskFail "This agreement is made between the parties.").result
       "risk_analysis" =
       Json.obj [("risk_analysis", Json.arr []), ("overall_risk_assessment", Json.obj [])]) :=
  ⟨⟨by decide, by decide, by decide, by decide⟩,
   risk_failure_soft_default envRiskFail "This agreement is made between the parties."
     sampleClauseResult "Request timed out" (by decide) rfl (by decide) (by decide) rfl
     (by decide)⟩

/-- C5: for empty or whitespace-only contract text the run fails
immediately with the documented error string and performs zero agent
invocations (hence zero inference-client calls). -/
theorem empty_input_rejected (env : Env) (text : String) (ht : pyStrip text = "") :
    review_contract env text =
      { result := [("error", Json.s "No contract text provided for review"),
                   ("success", Json.b false)],
        calls := [] } ∧
    (review_contract env text).calls.length = 0 := by
  have hres : review_contract env text =
      { result := [("error", Json.s "No contract text provided for review"),
                   ("success", Json.b false)],
        calls := [] } := by
    simp [review_contract, ht]
  exact ⟨hres, by rw [hres]; rfl⟩

/-- Witness for C5 on whitespace-only input. -/
theorem empty_input_rejected_witness :
    pyStrip "  \t \n " = "" ∧
    (review_contract envAllOk "  \t \n " =
      { result := [("error", Json.s "No contract text provided for review"),
                   ("success", Json.b false)],
        calls := [] } ∧
     (review_contract envAllOk "  \t \n ").calls.length = 0) :=
  ⟨by decide, empty_input_rejected envAllOk "  \t \n " (by decide)⟩

/-- C4 counterexample: in a run whose risk-analysis call raises (a soft
stage-2 failure) the report still has success true, but the risk slot is
the bare degraded default with NO error string nested under it — the
informational error is only printed, contradicting the claim that every
soft failure leaves an error string nested under the stage result. -/
theorem soft_failure_error_dropped :
    dget (review_contract envRiskFail "This agreement is made between the parties.").result
      "success" Json.null = Json.b true ∧
    stageSlot (review_contract envRiskFail "This agreement is made between the parties.").result
      "risk_analysis" =
      Json.obj [("risk_analysis", Json.arr []), ("overall_risk_assessment", Json.obj [])] ∧
    hasKey (asObj (stageSlot
      (review_contract envRiskFail "This agreement is made between the parties.").result
      "risk_analysis")) "error" = false :=
  ⟨rfl, rfl, rfl⟩

/-- C4 as amended: soft failures of stages 2-4 are recovered locally and
never reach the top level (the run keeps success true), but only the
stage-3 (language-clarity) slot retains the informational error string
nested in its degraded default; the stage-2 and stage-4 slots are
replaced by bare degraded defaults from which the error string is
dropped. -/
theorem soft_failure_recovery (env : Env) (text : String) (cr : Obj)
    (ht : ¬ pyStrip text = "") (hc : env.clause = StageOutcome.ok cr)
    (he : hasKey cr "error" = false) (ha : isArrAt cr "detected_clauses" = true)
    (hr : wellShapedOutcome wellShapedRisk env.risk = true)
    (hd : wellShapedOutcome wellShapedRedline env.redline = true) :
    dget (review_contract env text).result "success" Json.null = Json.b true ∧
    (∀ m, env.risk = StageOutcome.exn m →
      stageSlot (review_contract env text).result "risk_analysis" =
        Json.obj riskReplacement ∧
      hasKey riskReplacement "error" = false) ∧
    (∀ m, env.clarity = StageOutcome.exn m →
      stageSlot (review_contract env text).result "language_clarity" =
        Json.obj (clarityErrorDefault m) ∧
      hasKey (clarityErrorDefault m) "error" = true) ∧
    (∀ m, env.redline = StageOutcome.exn m →
      stageSlot (review_contract env text).result "redline_suggestions" =
        Json.obj redlineReplacement ∧
      hasKey redlineReplacement "error" = false) := by
  obtain ⟨ns, hns, hres⟩ := review_contract_success env text cr ht hc he ha hr hd
  rw [hres]
  refine ⟨rfl, ?_, ?_, ?_⟩
  · intro m hm
    refine ⟨?_, rfl⟩
    simp [stageSlot, dget, dlookup, List.find?, asObj, hm, effectiveRisk_exn]
  · intro m hm
    refine ⟨?_, rfl⟩
    simp [stageSlot, dget, dlookup, List.find?, asObj, hm, assess_language_clarity]
  · intro m hm
    refine ⟨?_, rfl⟩
    simp [stageSlot, dget, dlookup, List.find?, asObj, hm, effectiveRedline_exn]

/-- Witness for the amended C4 at the environment whose risk stage
fails. -/
theorem soft_failure_recovery_witness :
    (¬ pyStrip "This agreement is made between the parties." = "" ∧
     hasKey sampleClauseResult "error" = false ∧
     isArrAt sampleClauseResult "detected_clauses" = true ∧
     wellShapedOutcome wellShapedRisk envRiskFail.risk = true ∧
     wellShapedOutcome wellShapedRedline envRiskFail.redline = true) ∧
    (dget (review_contract envRiskFail "This agreement is made between the parties.").result
       "success" Json.null = Json.b true ∧
     (∀ m, envRiskFail.risk = StageOutcome.exn m →
       stageSlot (review_contract envRiskFail
         "This agreement is made between the parties.").result "risk_analysis" =
         Json.obj riskReplacement ∧
       hasKey riskReplacement "error" = false) ∧
     (∀ m, envRiskFail.clarity = StageOutcome.exn m →
       stageSlot (review_contract envRiskFail
         "This agreement is made between the parties.").result "language_clarity" =
         Json.obj (clarityErrorDefault m) ∧
       hasKey (clarityErrorDefault m) "error" = true) ∧
     (∀ m, envRiskFail.redline = StageOutcome.exn m →
       stageSlot (review_contract envRiskFail
         "This agreement is made between the parties.").result "redline_suggestions" =
         Json.obj redlineReplacement ∧
       hasKey redlineReplacement "error" = false)) :=
  ⟨⟨by decide, by decide, by decide, by decide, by decide⟩,
   soft_failure_recovery envRiskFail "This agreement is made between the parties."
     sampleClauseResult (by decide) rfl (by decide) (by decide) (by decide) (by decide)⟩

/-- C7: for every pair of integers `highSeverityRiskCount` and
`totalRiskCount` (missing upstream fields being taken as 0), the derived
overall risk level is HIGH if high ≥ 3, else MEDIUM if high ≥ 1 or
total ≥ 5, else LOW if total ≥ 1, else MINIMAL, first match winning. -/
theorem overall_risk_level_formula (high total : Int) :
    determine_overall_risk_level
        (Json.obj [("high_severity_count", Json.i high),
                   ("total_risks_identified", Json.i total)]) =
      Except.ok (riskLevelSpec high total) ∧
    determine_overall_risk_level
        (Json.obj [("high_severity_count", Json.i high)]) =
      Except.ok (riskLevelSpec high 0) ∧
    determine_overall_risk_level
        (Json.obj [("total_risks_identified", Json.i total)]) =
      Except.ok (riskLevelSpec 0 total) ∧
    determine_overall_risk_level (Json.obj []) =
      Except.ok (riskLevelSpec 0 0) := by
  refine ⟨?_, ?_, ?_, rfl⟩ <;>
  · simp only [determine_overall_risk_level, pyGet, dget, dlookup, List.find?,
      pyGeInt, riskLevelSpec, String.reduceBEq, Option.getD]
    norm_num
    split_ifs <;> first | rfl | omega

/-- C8: for every coverage-assessment string and integer risk score
(missing coverage taken as the empty string, missing score as 0), the
derived contract quality is GOOD when the coverage text contains
"comprehensive" case-insensitively and the score is below 3, else FAIR
when it contains "adequate" and the score is below 5, else
NEEDS_IMPROVEMENT — substring containment, not equality. -/
theorem contract_quality_formula (cov : String) (score : Int) :
    assess_contract_quality (Json.obj [("coverage_assessment", Json.s cov)])
        (Json.obj [("overall_risk_score", Json.i score)]) =
      Except.ok (qualitySpec cov score) ∧
    assess_contract_quality (Json.obj []) (Json.obj []) =
      Except.ok (qualitySpec "" 0) := by
  refine ⟨?_, rfl⟩
  simp only [assess_contract_quality, pyGet, dget, dlookup, List.find?,
    pyLower, pyLtInt, qualitySpec, String.reduceBEq, Option.getD]
  by_cases h1 : strContains (lowerStr cov) "comprehensive" <;>
    by_cases h2 : strContains (lowerStr cov) "adequate" <;>
      simp [h1, h2] <;> split_ifs <;> first | rfl | omega | simp_all

/-- C9: for every pair of counts (missing fields taken as 0) the derived
next-steps sequence is: one instruction naming the critical-change count
when it is positive, then one naming the high-severity-risk count when it
is positive, then always the three fixed boilerplate instructions, in
that order; hence between 3 and 5 entries, no deduplication, no
reordering. -/
theorem next_steps_formula (cc hr : Int) :
    generate_next_steps
        [("overall_risk_assessment", Json.obj [("high_severity_count", Json.i hr)])]
        [("summary", Json.obj [("critical_changes", Json.i cc)])] =
      Except.ok (nextStepsSpec cc hr) ∧
    generate_next_steps [] [] = Except.ok (nextStepsSpec 0 0) ∧
    3 ≤ (nextStepsSpec cc hr).length ∧ (nextStepsSpec cc hr).length ≤ 5 := by
  refine ⟨?_, rfl, ?_, ?_⟩
  · simp only [generate_next_steps, pyGet, dget, dlookup, List.find?,
      pyGtZero, pyStr, nextStepsSpec, String.reduceBEq, Option.getD]
    norm_num
  · simp only [nextStepsSpec]
    split_ifs <;> simp
  · simp only [nextStepsSpec]
    split_ifs <;> simp

end ContractReview
